import Mathlib

/-
Verification of the go-getresponse client library.

The repository contains two parallel client implementations:
- "V1": `client.go`, built on the external `client.BaseClient` abstraction
  (`http.go` holds that base client), and
- "V2": a second implementation (kept alongside the tests) with its own
  `roundTrip` and `checkGetResponseError` helpers.

This file shallowly embeds both: JSON decoding is modelled with a small
JSON value type and an executable parser mirroring the behaviour of Go's
`encoding/json` on the shapes this client decodes (objects with int and
string fields, arrays of contacts, `null` handling, malformed input);
Go errors are modelled as a tagged variant; HTTP statuses are `Int`.
-/

/-- JSON values as produced by Go's `encoding/json` scanner. Non-integer
numeric literals are kept as raw text (`numF`): the client only ever decodes
integer fields, so a non-integer literal can only be skipped (unknown key)
or produce a type error. -/
inductive JsonVal where
  | null
  | bool (b : Bool)
  | num (n : Int)
  | numF (lit : String)
  | str (s : String)
  | arr (elems : List JsonVal)
  | obj (fields : List (String × JsonVal))
deriving Repr, BEq, Inhabited

/-- JSON whitespace. -/
def isJsonWs (c : Char) : Bool :=
  c = ' ' || c = '\n' || c = '\t' || c = '\r'

/-- Drop leading JSON whitespace. -/
def skipWs : List Char → List Char
  | [] => []
  | c :: cs => if isJsonWs c then skipWs cs else c :: cs

/-- Parse the body of a JSON string after the opening quote, handling the
escapes that can occur in this client's payloads. -/
def parseStrAux (acc : List Char) : List Char → Option (String × List Char)
  | [] => none
  | c :: cs =>
    if c = '"' then some (String.mk acc.reverse, cs)
    else if c = '\\' then
      match cs with
      | '"' :: cs2 => parseStrAux ('"' :: acc) cs2
      | '\\' :: cs2 => parseStrAux ('\\' :: acc) cs2
      | 'n' :: cs2 => parseStrAux ('\n' :: acc) cs2
      | 't' :: cs2 => parseStrAux ('\t' :: acc) cs2
      | '/' :: cs2 => parseStrAux ('/' :: acc) cs2
      | _ => none
    else parseStrAux (c :: acc) cs

/-- Split a leading run of decimal digits. -/
def takeDigits : List Char → (List Char × List Char)
  | [] => ([], [])
  | c :: cs =>
    if c.isDigit then
      let (ds, r) := takeDigits cs
      (c :: ds, r)
    else ([], c :: cs)

/-- Numeric value of a digit run. -/
def natOfDigits (ds : List Char) : Nat :=
  ds.foldl (fun acc c => acc * 10 + (c.toNat - 48)) 0

/-- Characters that may continue a non-integer numeric literal. -/
def isNumTailChar (c : Char) : Bool :=
  c.isDigit || c = '.' || c = 'e' || c = 'E' || c = '+' || c = '-'

/-- Split a leading run of numeric-literal tail characters. -/
def takeNumTail : List Char → (List Char × List Char)
  | [] => ([], [])
  | c :: cs =>
    if isNumTailChar c then
      let (ds, r) := takeNumTail cs
      (c :: ds, r)
    else ([], c :: cs)

/-- Parse a JSON number (integer, or non-integer kept as raw literal). -/
def parseNumber (input : List Char) : Option (JsonVal × List Char) :=
  let (neg, rest) :=
    match input with
    | '-' :: cs => (true, cs)
    | cs => (false, cs)
  let (ds, rest2) := takeDigits rest
  if ds.isEmpty then none
  else
    match rest2 with
    | c :: _ =>
      if c = '.' || c = 'e' || c = 'E' then
        let (tail, rest3) := takeNumTail rest2
        some (.numF (String.mk ((if neg then ['-'] else []) ++ ds ++ tail)), rest3)
      else
        let n : Int := Int.ofNat (natOfDigits ds)
        some (.num (if neg then -n else n), rest2)
    | [] =>
      let n : Int := Int.ofNat (natOfDigits ds)
      some (.num (if neg then -n else n), rest2)

mutual

/-- Parse one JSON value (fuel-bounded recursive descent). -/
def parseValue : Nat → List Char → Option (JsonVal × List Char)
  | 0, _ => none
  | Nat.succ fuel, input =>
    match skipWs input with
    | [] => none
    | 'n' :: 'u' :: 'l' :: 'l' :: rest => some (.null, rest)
    | 't' :: 'r' :: 'u' :: 'e' :: rest => some (.bool true, rest)
    | 'f' :: 'a' :: 'l' :: 's' :: 'e' :: rest => some (.bool false, rest)
    | '"' :: rest => (parseStrAux [] rest).map (fun p => (.str p.1, p.2))
    | '[' :: rest =>
      match skipWs rest with
      | ']' :: r2 => some (.arr [], r2)
      | other => (parseElems fuel other).map (fun p => (.arr p.1, p.2))
    | '{' :: rest =>
      match skipWs rest with
      | '}' :: r2 => some (.obj [], r2)
      | other => (parseFields fuel other).map (fun p => (.obj p.1, p.2))
    | c :: rest =>
      if c = '-' || c.isDigit then parseNumber (c :: rest) else none

/-- Parse the elements of a non-empty JSON array, including the closing bracket. -/
def parseElems : Nat → List Char → Option (List JsonVal × List Char)
  | 0, _ => none
  | Nat.succ fuel, input =>
    match parseValue fuel input with
    | none => none
    | some (j, rest) =>
      match skipWs rest with
      | ',' :: r2 => (parseElems fuel r2).map (fun p => (j :: p.1, p.2))
      | ']' :: r2 => some ([j], r2)
      | _ => none

/-- Parse the members of a non-empty JSON object, including the closing brace. -/
def parseFields : Nat → List Char → Option (List (String × JsonVal) × List Char)
  | 0, _ => none
  | Nat.succ fuel, input =>
    match skipWs input with
    | '"' :: rest =>
      match parseStrAux [] rest with
      | none => none
      | some (k, r1) =>
        match skipWs r1 with
        | ':' :: r2 =>
          match parseValue fuel r2 with
          | none => none
          | some (v, r3) =>
            match skipWs r3 with
            | ',' :: r4 => (parseFields fuel r4).map (fun p => ((k, v) :: p.1, p.2))
            | '}' :: r4 => some ([(k, v)], r4)
            | _ => none
        | _ => none
    | _ => none

end

/-- Parse a complete JSON document, as `json.Unmarshal` validates its input:
exactly one value, with only whitespace around it. -/
def parseJson (s : String) : Option JsonVal :=
  match parseValue (s.length + 2) s.toList with
  | none => none
  | some (j, rest) =>
    match skipWs rest with
    | [] => some j
    | _ => none

/-- `GetResponseError` from `error.go` (also in the unnamed error file):
the remote API's error shape, with `Error()` returning the message. -/
structure GetResponseError where
  HTTPStatus : Int := 0
  ErrorCode : Int := 0
  CodeDescription : String := ""
  Message : String := ""
  MoreInfo : String := ""
  Context : Option (List String) := none
  UUID : String := ""
deriving Repr, DecidableEq, Inhabited

/-- Modelled from the spec: the `Contact` struct's Go definition is not under
`src/` (only its uses in both clients and the tests are). The spec treats
contact entities as opaque JSON payloads with optional scalar fields; the test
scenarios exercise optional `name` and `email`, which is all the claims need. -/
structure Contact where
  Name : Option String := none
  Email : Option String := none
deriving Repr, DecidableEq, Inhabited

/-- A Go slice, which is either `nil` (`none`) or a (possibly empty) list. -/
abbrev GoSlice (α : Type) := Option (List α)

/-- Decode a JSON array's elements as a `[]string`. -/
def decodeStringList : List JsonVal → Except String (List String)
  | [] => .ok []
  | .str s :: rest => (decodeStringList rest).map (fun ss => s :: ss)
  | _ :: _ => .error "cannot unmarshal into field context of type []string"

/-- Decode one object member into a `GetResponseError`, with Go's
`encoding/json` field rules: JSON `null` leaves the field untouched, a value
of the wrong JSON kind is a type error, unknown keys are ignored. -/
def grSetField (e : GetResponseError) (k : String) (v : JsonVal) :
    Except String GetResponseError :=
  if k = "httpStatus" then
    match v with
    | .num n => .ok { e with HTTPStatus := n }
    | .null => .ok e
    | _ => .error "cannot unmarshal into field httpStatus of type int"
  else if k = "code" then
    match v with
    | .num n => .ok { e with ErrorCode := n }
    | .null => .ok e
    | _ => .error "cannot unmarshal into field code of type int"
  else if k = "codeDescription" then
    match v with
    | .str s => .ok { e with CodeDescription := s }
    | .null => .ok e
    | _ => .error "cannot unmarshal into field codeDescription of type string"
  else if k = "message" then
    match v with
    | .str s => .ok { e with Message := s }
    | .null => .ok e
    | _ => .error "cannot unmarshal into field message of type string"
  else if k = "moreInfo" then
    match v with
    | .str s => .ok { e with MoreInfo := s }
    | .null => .ok e
    | _ => .error "cannot unmarshal into field moreInfo of type string"
  else if k = "context" then
    match v with
    | .arr xs =>
      (decodeStringList xs).map (fun ss => { e with Context := some ss })
    | .null => .ok e
    | _ => .error "cannot unmarshal into field context of type []string"
  else if k = "uuid" then
    match v with
    | .str s => .ok { e with UUID := s }
    | .null => .ok e
    | _ => .error "cannot unmarshal into field uuid of type string"
  else .ok e

/-- Decode a JSON value into `GetResponseError`: `null` leaves the zero value,
an object is decoded member by member, anything else is a type error. -/
def unmarshalGRError (j : JsonVal) : Except String GetResponseError :=
  match j with
  | .null => .ok {}
  | .obj fields =>
    fields.foldlM (fun e kv => grSetField e kv.1 kv.2) ({} : GetResponseError)
  | _ => .error "cannot unmarshal into GetResponseError"

/-- `json.Unmarshal` of a byte body into `GetResponseError`. -/
def goUnmarshalGRError (body : String) : Except String GetResponseError :=
  match parseJson body with
  | none => .error "invalid json"
  | some j => unmarshalGRError j

/-- Decode one object member into a `Contact` (optional string fields,
unknown keys ignored, `null` leaves the pointer nil). -/
def contactSetField (c : Contact) (k : String) (v : JsonVal) :
    Except String Contact :=
  if k = "name" then
    match v with
    | .str s => .ok { c with Name := some s }
    | .null => .ok c
    | _ => .error "cannot unmarshal into field name of type *string"
  else if k = "email" then
    match v with
    | .str s => .ok { c with Email := some s }
    | .null => .ok c
    | _ => .error "cannot unmarshal into field email of type *string"
  else .ok c

/-- Decode a JSON value into a `Contact`. -/
def unmarshalContactVal (j : JsonVal) : Except String Contact :=
  match j with
  | .null => .ok {}
  | .obj fields => fields.foldlM (fun c kv => contactSetField c kv.1 kv.2) ({} : Contact)
  | _ => .error "cannot unmarshal into Contact"

/-- `json.Unmarshal` of a byte body into a `Contact`. -/
def goUnmarshalContact (body : String) : Except String Contact :=
  match parseJson body with
  | none => .error "invalid json"
  | some j => unmarshalContactVal j

/-- Decode the elements of a JSON array into contacts, the way Go's decoder
does: a type error on one element is recorded but decoding continues, the
faulty element remaining the zero `Contact`. Returns the slice contents and
the recorded error, if any. -/
def decodeContactElems : List JsonVal → (List Contact × Option String)
  | [] => ([], none)
  | j :: js =>
    let (cs, e) := decodeContactElems js
    match unmarshalContactVal j with
    | .ok c => (c :: cs, e)
    | .error m => (({} : Contact) :: cs, some m)

/-- Decode a JSON value into a `[]Contact` slice with Go semantics:
`null` sets the slice to nil with no error; an array yields a non-nil slice
(with any element error recorded); any other value is a type error that
leaves the target unchanged. -/
def unmarshalContactsVal (j : JsonVal) (init : GoSlice Contact) :
    GoSlice Contact × Option String :=
  match j with
  | .null => (none, none)
  | .arr xs =>
    let (cs, e) := decodeContactElems xs
    (some cs, e)
  | _ => (init, some "cannot unmarshal into []Contact")

/-- `json.Unmarshal` of a byte body into a `[]Contact` target holding `init`:
a syntax error leaves the target unchanged. -/
def goUnmarshalContacts (body : String) (init : GoSlice Contact) :
    GoSlice Contact × Option String :=
  match parseJson body with
  | none => (init, some "invalid json")
  | some j => unmarshalContactsVal j init

/-- Go `error` values this client can produce or propagate.
`grErrorRaw` embeds the `GetResponseErrorRaw` struct (declared in the unnamed
error file: the decode failure's message, the HTTP status and the raw body). -/
inductive GoError where
  | transport (msg : String)
  | jsonError (msg : String)
  | grError (e : GetResponseError)
  | grErrorRaw (errMsg : String) (httpStatus : Int) (httpBody : String)
  | simple (msg : String)
deriving Repr, DecidableEq, Inhabited

/-- The `Error() string` method of each error value: `GetResponseError.Error`
returns its `Message`, `GetResponseErrorRaw.Error` its wrapped error's text,
`errors.New` values their message. -/
def GoError.message : GoError → String
  | .transport m => m
  | .jsonError m => m
  | .grError e => e.Message
  | .grErrorRaw m _ _ => m
  | .simple m => m

/-- Whether an error value is the `GetResponseErrorRaw` decode-failure shape
(the only error shape that carries the HTTP status and raw body). -/
def GoError.isRawDecodeFailure : GoError → Bool
  | .grErrorRaw _ _ _ => true
  | _ => false

/-- `ErrCouldNotUnmarshal = errors.New("could not unmarshal")`. -/
def ErrCouldNotUnmarshal : GoError := .simple "could not unmarshal"

/-- Modelled from the spec: the `ErrorResponse` type that `parseError` in
`client.go` decodes into is not under `src/`; the spec gives the error
response shape `{httpStatus, code, codeDescription, message, moreInfo,
context[], uuid}`, identical to `GetResponseError`, so it is modelled as the
same shape. -/
abbrev ErrorResponse := GetResponseError

/-- `json.Unmarshal` of a byte body into an `ErrorResponse`. -/
def goUnmarshalErrorResponse (body : String) : Except String ErrorResponse :=
  goUnmarshalGRError body

/-- `parseError` from `client.go` (V1): decode the body as `ErrorResponse`;
on failure return `errors.New("could not unmarshal error response")`, on
success return `errors.New(errRet.Message)`. -/
def parseError (resp : String) : GoError :=
  match goUnmarshalErrorResponse resp with
  | .error _ => .simple "could not unmarshal error response"
  | .ok errRet => .simple errRet.Message

/-- `checkGetResponseError` (V2): propagate a transport error; statuses in
`[200, 400)` are success; otherwise decode the body as `GetResponseError`,
returning the JSON error itself if decoding fails, else the decoded error. -/
def checkGetResponseError (status : Int) (ret : String) (err : Option GoError) :
    Option GoError :=
  match err with
  | some e => some e
  | none =>
    if 200 ≤ status ∧ status < 400 then none
    else
      match goUnmarshalGRError ret with
      | .error m => some (.jsonError m)
      | .ok grErr => some (.grError grErr)

/-- The error produced by V2's error-decoding branch for a given body. -/
def decodeRemoteErrorV2 (body : String) : GoError :=
  match goUnmarshalGRError body with
  | .error m => .jsonError m
  | .ok grErr => .grError grErr

/-- A transport outcome as returned by `MakeRequest`/`roundTrip`:
status, raw body, and the transport-level error, if any. -/
structure TransportOutcome where
  status : Int
  body : String
  err : Option GoError
deriving Repr, DecidableEq, Inhabited

/-- The failure condition tested by every V1 operation in `client.go`:
`status < 200 || status >= 400`. -/
def failCondV1 (status : Int) : Prop := status < 200 ∨ 400 ≤ status

instance (status : Int) : Decidable (failCondV1 status) := by
  unfold failCondV1; infer_instance

/-- The success condition tested by V2's `checkGetResponseError`:
`status >= 200 && status < 400`. -/
def successCondV2 (status : Int) : Prop := 200 ≤ status ∧ status < 400

instance (status : Int) : Decidable (successCondV2 status) := by
  unfold successCondV2; infer_instance

/-- V1 `CreateContact`, response side: propagate a transport error, parse
the error body outside `[200, 400)`, otherwise succeed discarding the body. -/
def CreateContactV1 (t : TransportOutcome) : Option GoError :=
  match t.err with
  | some e => some e
  | none => if t.status < 200 ∨ 400 ≤ t.status then some (parseError t.body) else none

/-- V1 `GetContacts`, response side: `result := make([]Contact, 0)` is
returned on every error path; in the success range the body is decoded into
`result`, a decode error being reported as `ErrCouldNotUnmarshal`. -/
def GetContactsV1 (t : TransportOutcome) : GoSlice Contact × Option GoError :=
  let result : GoSlice Contact := some []
  match t.err with
  | some e => (result, some e)
  | none =>
    if t.status < 200 ∨ 400 ≤ t.status then (result, some (parseError t.body))
    else
      match goUnmarshalContacts t.body result with
      | (result2, some _) => (result2, some ErrCouldNotUnmarshal)
      | (result2, none) => (result2, none)

/-- V1 `GetContact`, response side. -/
def GetContactV1 (t : TransportOutcome) : Contact × Option GoError :=
  let result : Contact := {}
  match t.err with
  | some e => (result, some e)
  | none =>
    if t.status < 200 ∨ 400 ≤ t.status then (result, some (parseError t.body))
    else
      match goUnmarshalContact t.body with
      | .error _ => (result, some ErrCouldNotUnmarshal)
      | .ok c => (c, none)

/-- V1 `UpdateContact`, response side (same shape as `GetContact`). -/
def UpdateContactV1 (t : TransportOutcome) : Contact × Option GoError :=
  let result : Contact := {}
  match t.err with
  | some e => (result, some e)
  | none =>
    if t.status < 200 ∨ 400 ≤ t.status then (result, some (parseError t.body))
    else
      match goUnmarshalContact t.body with
      | .error _ => (result, some ErrCouldNotUnmarshal)
      | .ok c => (c, none)

/-- V1 `UpdateContactCustomFields`, response side (same shape as `GetContact`). -/
def UpdateContactCustomFieldsV1 (t : TransportOutcome) : Contact × Option GoError :=
  let result : Contact := {}
  match t.err with
  | some e => (result, some e)
  | none =>
    if t.status < 200 ∨ 400 ≤ t.status then (result, some (parseError t.body))
    else
      match goUnmarshalContact t.body with
      | .error _ => (result, some ErrCouldNotUnmarshal)
      | .ok c => (c, none)

/-- V1 `DeleteContact`, response side (void, like `CreateContact`). -/
def DeleteContactV1 (t : TransportOutcome) : Option GoError :=
  match t.err with
  | some e => some e
  | none => if t.status < 200 ∨ 400 ≤ t.status then some (parseError t.body) else none

/-- V2 `CreateContact`, response side: everything goes through
`checkGetResponseError`. -/
def CreateContactV2 (t : TransportOutcome) : Option GoError :=
  checkGetResponseError t.status t.body t.err

/-- V2 `GetContacts`, response side: on error return a nil response; on
success decode into the response's zero-valued (nil) `Contacts` slice. -/
def GetContactsV2 (t : TransportOutcome) : Option (GoSlice Contact) × Option GoError :=
  match checkGetResponseError t.status t.body t.err with
  | some e => (none, some e)
  | none =>
    match goUnmarshalContacts t.body none with
    | (_, some _) => (none, some ErrCouldNotUnmarshal)
    | (cs, none) => (some cs, none)

/-- V2 `GetContact`, response side. -/
def GetContactV2 (t : TransportOutcome) : Option Contact × Option GoError :=
  match checkGetResponseError t.status t.body t.err with
  | some e => (none, some e)
  | none =>
    match goUnmarshalContact t.body with
    | .error _ => (none, some ErrCouldNotUnmarshal)
    | .ok c => (some c, none)

/-- V2 `UpdateContact`, response side (on a decode error it returns the
partially-filled result alongside `ErrCouldNotUnmarshal`). -/
def UpdateContactV2 (t : TransportOutcome) : Option Contact × Option GoError :=
  match checkGetResponseError t.status t.body t.err with
  | some e => (none, some e)
  | none =>
    match goUnmarshalContact t.body with
    | .error _ => (some {}, some ErrCouldNotUnmarshal)
    | .ok c => (some c, none)

/-- V2 `UpdateContactCustomFields`, response side. -/
def UpdateContactCustomFieldsV2 (t : TransportOutcome) : Option Contact × Option GoError :=
  match checkGetResponseError t.status t.body t.err with
  | some e => (none, some e)
  | none =>
    match goUnmarshalContact t.body with
    | .error _ => (none, some ErrCouldNotUnmarshal)
    | .ok c => (some c, none)

/-- V2 `DeleteContact`, response side. -/
def DeleteContactV2 (t : TransportOutcome) : Option GoError :=
  checkGetResponseError t.status t.body t.err

/-- The six operations of the `Client` interface. -/
inductive GrOp where
  | create
  | getAll
  | getOne
  | update
  | upsertCF
  | del
deriving Repr, DecidableEq

/-- The error component of each V1 operation's result. -/
def opErrV1 : GrOp → TransportOutcome → Option GoError
  | .create, t => CreateContactV1 t
  | .getAll, t => (GetContactsV1 t).2
  | .getOne, t => (GetContactV1 t).2
  | .update, t => (UpdateContactV1 t).2
  | .upsertCF, t => (UpdateContactCustomFieldsV1 t).2
  | .del, t => DeleteContactV1 t

/-- The error component of each V2 operation's result. -/
def opErrV2 : GrOp → TransportOutcome → Option GoError
  | .create, t => CreateContactV2 t
  | .getAll, t => (GetContactsV2 t).2
  | .getOne, t => (GetContactV2 t).2
  | .update, t => (UpdateContactV2 t).2
  | .upsertCF, t => (UpdateContactCustomFieldsV2 t).2
  | .del, t => DeleteContactV2 t



/-- `X-Auth-Token`, the authentication header name (both implementations). -/
def XAuthTokenHeader : String := "X-Auth-Token"

/-- `X-Domain`, the tenant/domain header name (both implementations). -/
def XDomainHeader : String := "X-Domain"

/-- `http.Header` restricted to the single-value `Set` usage of this client. -/
abbrev Headers := List (String × String)

/-- `http.Header.Set`: replace any existing value for the key. -/
def headersSet (h : Headers) (k v : String) : Headers :=
  (h.filter (fun p => p.1 ≠ k)) ++ [(k, v)]

/-- Whether a header with the given name is present. -/
def headersHas (h : Headers) (k : String) : Bool :=
  h.any (fun p => p.1 = k)

/-- The value of the header with the given name, if present. -/
def headersGet (h : Headers) (k : String) : Option String :=
  (h.find? (fun p => p.1 = k)).map Prod.snd

/-- `url.Values` restricted to the single-value `Set` usage of this client. -/
abbrev UrlValues := List (String × String)

/-- `url.Values.Set`: replace any existing value for the key. -/
def valuesSet (q : UrlValues) (k v : String) : UrlValues :=
  (q.filter (fun p => p.1 ≠ k)) ++ [(k, v)]

/-- The upper-case hex digit of a value below 16 (`url` escapes use upper case). -/
def hexDigitChar (n : Nat) : Char :=
  if n < 10 then Char.ofNat (48 + n) else Char.ofNat (55 + n)

/-- Characters `url.QueryEscape` leaves unescaped. -/
def isQueryUnescaped (c : Char) : Bool :=
  c.isAlphanum || c = '-' || c = '_' || c = '.' || c = '~'

/-- `url.QueryEscape` on one character: space becomes `+`, unreserved
characters stay, the rest become `%XX`. -/
def queryEscapeChar (c : Char) : String :=
  if c = ' ' then "+"
  else if isQueryUnescaped c then String.singleton c
  else String.mk ['%', hexDigitChar (c.toNat / 16), hexDigitChar (c.toNat % 16)]

/-- `url.QueryEscape` (on the ASCII payloads this client sends). -/
def queryEscape (s : String) : String :=
  String.join (s.toList.map queryEscapeChar)

/-- Lexicographic byte-order comparison of strings (the order `sort.Strings`
uses on the ASCII keys this client sends). -/
def charListLt : List Char → List Char → Bool
  | [], [] => false
  | [], _ :: _ => true
  | _ :: _, [] => false
  | a :: as, b :: bs =>
    if a.toNat < b.toNat then true
    else if b.toNat < a.toNat then false
    else charListLt as bs

/-- `strLt a b` is true when `a` sorts strictly before `b`. -/
def strLt (a b : String) : Bool := charListLt a.toList b.toList

/-- Insert one pair into a key-sorted list of pairs. -/
def insertByKey (p : String × String) : UrlValues → UrlValues
  | [] => [p]
  | q :: qs => if strLt p.1 q.1 then p :: q :: qs else q :: insertByKey p qs

/-- Sort pairs by key, as `url.Values.Encode` sorts its keys. -/
def sortByKey (q : UrlValues) : UrlValues :=
  q.foldr insertByKey []

/-- `url.Values.Encode`: keys sorted, each pair query-escaped and joined
with `&`. -/
def valuesEncode (q : UrlValues) : String :=
  String.intercalate "&" ((sortByKey q).map (fun p => queryEscape p.1 ++ "=" ++ queryEscape p.2))

/-- An outbound HTTP request as both implementations assemble it. -/
structure HttpRequest where
  method : String
  path : String
  rawQuery : String
  headers : Headers
deriving Repr, DecidableEq

/-- The V1 client struct (`getResponseClient` in `client.go`): the base
client itself is external, the configuration fields are kept. -/
structure GetResponseClientV1 where
  apiKey : String
  domain : String
  url : String
deriving Repr, DecidableEq

/-- `buildDefaultHeaders` from `client.go`: the auth header, the JSON
content type, and the domain header only when a domain is configured. -/
def buildDefaultHeaders (g : GetResponseClientV1) : Headers :=
  let h := headersSet [] XAuthTokenHeader ("api-key " ++ g.apiKey)
  let h := headersSet h "Content-type" "application/json"
  if g.domain ≠ "" then headersSet h XDomainHeader g.domain else h

/-- `NewClient` from `client.go`: only the base client and `apiKey` fields
are set, so `domain` (and the unused `url` field) stay at their zero value. -/
def NewClientV1 (apiKey : String) (_apiUrl : String) : GetResponseClientV1 :=
  { apiKey := apiKey, domain := "", url := "" }

/-- The V2 client struct. -/
structure GetResponseClientV2 where
  apiKey : String
  domain : String
  apiUrl : String
deriving Repr, DecidableEq

/-- V2 `NewClient`: all three configuration fields are set from the arguments. -/
def NewClientV2 (apiUrl apiKey domain : String) : GetResponseClientV2 :=
  { apiKey := apiKey, apiUrl := apiUrl, domain := domain }

/-- The header map `h` that V2's `roundTrip` builds, with the same
construction as V1's `buildDefaultHeaders`. The source never assigns it to
the request — `req.Header = h` is absent — so this map is built and then
dropped. -/
def roundTripHeaders (g : GetResponseClientV2) : Headers :=
  let h := headersSet [] XAuthTokenHeader ("api-key " ++ g.apiKey)
  let h := headersSet h "Content-type" "application/json"
  if g.domain ≠ "" then headersSet h XDomainHeader g.domain else h

/-- `MakeRequest` from `http.go`, request-assembly side: the URL's path is
set to the slug, the raw query to the encoded values, and the headers are
attached verbatim (`req.Header = headers`). -/
def MakeRequestReq (method slug : String) (query : UrlValues) (headers : Headers) :
    HttpRequest :=
  { method := method, path := slug, rawQuery := valuesEncode query, headers := headers }

/-- V2 `roundTrip`, request-assembly side: the path is parsed from
`apiUrl + path` (shown here for a base URL with an empty path) and the raw
query is the encoded values. The function builds the header map
`roundTripHeaders` but never assigns it to the request, so the outbound
request keeps the empty header set `http.NewRequest` gives it. -/
def roundTripReq (g : GetResponseClientV2) (method path : String) (query : UrlValues) :
    HttpRequest :=
  { method := method, path := g.apiUrl ++ path, rawQuery := valuesEncode query,
    headers := [] }

/-- The query V1 `GetContacts` builds (`query[k]`, `sort[k]`, `fields`,
`page`, `perPage`, optional `additionalFlags`); V2 builds the same query. -/
def getContactsQuery (queryHash : List (String × String)) (fields : List String)
    (sortHash : List (String × String)) (page perPage : Int)
    (additionalFlags : Option String) : UrlValues :=
  let q := queryHash.foldl (fun q kv => valuesSet q ("query[" ++ kv.1 ++ "]") kv.2) []
  let q := sortHash.foldl (fun q kv => valuesSet q ("sort[" ++ kv.1 ++ "]") kv.2) q
  let q := if fields.length > 0 then valuesSet q "fields" (String.intercalate "," fields) else q
  let q := valuesSet q "page" (toString page)
  let q := valuesSet q "perPage" (toString perPage)
  match additionalFlags with
  | some f => valuesSet q "additionalFlags" f
  | none => q

/-- The query V1 `GetContact` builds (optional `fields`). -/
def getContactQuery (fields : List String) : UrlValues :=
  if fields.length > 0 then valuesSet [] "fields" (String.intercalate "," fields) else []

/-- The query both `DeleteContact` implementations build. -/
def deleteContactQuery (messageID ipAddress : String) : UrlValues :=
  valuesSet (valuesSet [] "messageId" messageID) "ipAddress" ipAddress

/-- V1 `CreateContact`, request side: `POST /v3/contacts`, nil query. -/
def CreateContactReqV1 (g : GetResponseClientV1) : HttpRequest :=
  MakeRequestReq "POST" "/v3/contacts" [] (buildDefaultHeaders g)

/-- V1 `GetContacts`, request side: `GET /v3/contacts` with the list query. -/
def GetContactsReqV1 (g : GetResponseClientV1) (queryHash : List (String × String))
    (fields : List String) (sortHash : List (String × String)) (page perPage : Int)
    (additionalFlags : Option String) : HttpRequest :=
  MakeRequestReq "GET" "/v3/contacts"
    (getContactsQuery queryHash fields sortHash page perPage additionalFlags)
    (buildDefaultHeaders g)

/-- V1 `GetContact`, request side: `GET /v3/contacts/{id}`. -/
def GetContactReqV1 (g : GetResponseClientV1) (id : String) (fields : List String) :
    HttpRequest :=
  MakeRequestReq "GET" ("/v3/contacts/" ++ id) (getContactQuery fields)
    (buildDefaultHeaders g)

/-- V1 `UpdateContact`, request side: `POST /v3/contacts/{id}`, nil query. -/
def UpdateContactReqV1 (g : GetResponseClientV1) (id : String) : HttpRequest :=
  MakeRequestReq "POST" ("/v3/contacts/" ++ id) [] (buildDefaultHeaders g)

/-- V1 `UpdateContactCustomFields`, request side:
`POST /v3/contacts/{id}/custom-fields`, nil query. -/
def UpdateContactCustomFieldsReqV1 (g : GetResponseClientV1) (id : String) : HttpRequest :=
  MakeRequestReq "POST" ("/v3/contacts/" ++ id ++ "/custom-fields") []
    (buildDefaultHeaders g)

/-- V1 `DeleteContact`, request side: `DELETE /v3/contacts/{id}` with
`messageId` and `ipAddress` in the query. -/
def DeleteContactReqV1 (g : GetResponseClientV1) (id messageID ipAddress : String) :
    HttpRequest :=
  MakeRequestReq "DELETE" ("/v3/contacts/" ++ id)
    (deleteContactQuery messageID ipAddress) (buildDefaultHeaders g)

/-- V2 `CreateContact`, request side. -/
def CreateContactReqV2 (g : GetResponseClientV2) : HttpRequest :=
  roundTripReq g "POST" "/v3/contacts" []

/-- V2 `GetContacts`, request side. -/
def GetContactsReqV2 (g : GetResponseClientV2) (queryHash : List (String × String))
    (fields : List String) (sortHash : List (String × String)) (page perPage : Int)
    (additionalFlags : Option String) : HttpRequest :=
  roundTripReq g "GET" "/v3/contacts"
    (getContactsQuery queryHash fields sortHash page perPage additionalFlags)

/-- V2 `GetContact`, request side. -/
def GetContactReqV2 (g : GetResponseClientV2) (id : String) (fields : List String) :
    HttpRequest :=
  roundTripReq g "GET" ("/v3/contacts/" ++ id) (getContactQuery fields)

/-- V2 `UpdateContact`, request side. -/
def UpdateContactReqV2 (g : GetResponseClientV2) (id : String) : HttpRequest :=
  roundTripReq g "POST" ("/v3/contacts/" ++ id) []

/-- V2 `UpdateContactCustomFields`, request side. -/
def UpdateContactCustomFieldsReqV2 (g : GetResponseClientV2) (id : String) : HttpRequest :=
  roundTripReq g "POST" ("/v3/contacts/" ++ id ++ "/custom-fields") []

/-- V2 `DeleteContact`, request side. -/
def DeleteContactReqV2 (g : GetResponseClientV2) (id messageID ipAddress : String) :
    HttpRequest :=
  roundTripReq g "DELETE" ("/v3/contacts/" ++ id) (deleteContactQuery messageID ipAddress)

/-- The malformed body the tests send: `{"not json"`. -/
def badBody : String := "\x7b\"not json\""

/-- The well-formed error body of the claims: `{"code":1008,"message":"conflict"}`. -/
def conflictBody : String := "\x7b\"code\":1008,\"message\":\"conflict\"\x7d"

/-- The empty JSON object `{}`. -/
def emptyObjBody : String := "\x7b\x7d"

/-- The error body `{"code":1008}` with no message field. -/
def code1008Body : String := "\x7b\"code\":1008\x7d"

/-- `buildDefaultHeaders` evaluated: auth and content-type headers always,
the domain header exactly when a domain is configured. -/
theorem buildDefaultHeaders_eq (g : GetResponseClientV1) :
    buildDefaultHeaders g =
      if g.domain = "" then
        [(XAuthTokenHeader, "api-key " ++ g.apiKey), ("Content-type", "application/json")]
      else
        [(XAuthTokenHeader, "api-key " ++ g.apiKey), ("Content-type", "application/json"),
          (XDomainHeader, g.domain)] := by
  by_cases hd : g.domain = "" <;>
    simp [buildDefaultHeaders, headersSet, XAuthTokenHeader, XDomainHeader, hd]

/-- `roundTrip`'s header block evaluated, identically to V1. -/
theorem roundTripHeaders_eq (g : GetResponseClientV2) :
    roundTripHeaders g =
      if g.domain = "" then
        [(XAuthTokenHeader, "api-key " ++ g.apiKey), ("Content-type", "application/json")]
      else
        [(XAuthTokenHeader, "api-key " ++ g.apiKey), ("Content-type", "application/json"),
          (XDomainHeader, g.domain)] := by
  by_cases hd : g.domain = "" <;>
    simp [roundTripHeaders, headersSet, XAuthTokenHeader, XDomainHeader, hd]

/-- C5: the claim holds for V1, whose operations pass `buildDefaultHeaders`
to `MakeRequest` where `req.Header = headers` attaches them; but V2's
`roundTrip` builds the same header map and never assigns it to the request,
so every V2 outbound request carries no authentication header and no domain
header even when a domain is configured — the code drops the map it just
built. Evaluated at a client with key `"key"` and domain `"dom"`. -/
theorem c5_headers_built_but_not_attached :
    ((CreateContactReqV2 (NewClientV2 "u" "key" "dom")).headers = []
      ∧ (GetContactsReqV2 (NewClientV2 "u" "key" "dom") [("campaignId", "123")] ["name"]
          [("name", "asc")] 1 10 none).headers = []
      ∧ (GetContactReqV2 (NewClientV2 "u" "key" "dom") "i" []).headers = []
      ∧ (UpdateContactReqV2 (NewClientV2 "u" "key" "dom") "i").headers = []
      ∧ (UpdateContactCustomFieldsReqV2 (NewClientV2 "u" "key" "dom") "i").headers = []
      ∧ (DeleteContactReqV2 (NewClientV2 "u" "key" "dom") "i" "m" "ip").headers = [])
    ∧ (headersGet (roundTripHeaders (NewClientV2 "u" "key" "dom")) XAuthTokenHeader
        = some "api-key key"
      ∧ headersGet (roundTripHeaders (NewClientV2 "u" "key" "dom")) XDomainHeader
        = some "dom")
    ∧ (headersGet (CreateContactReqV1 ⟨"key", "dom", ""⟩).headers XAuthTokenHeader
        = some "api-key key"
      ∧ headersGet (CreateContactReqV1 ⟨"key", "dom", ""⟩).headers XDomainHeader
        = some "dom"
      ∧ headersGet (DeleteContactReqV1 ⟨"key", "dom", ""⟩ "i" "m" "ip").headers
          XAuthTokenHeader = some "api-key key"
      ∧ headersGet (GetContactReqV1 ⟨"key", "dom", ""⟩ "i" []).headers XDomainHeader
        = some "dom") := by
  exact ⟨⟨rfl, rfl, rfl, rfl, rfl, rfl⟩, ⟨rfl, rfl⟩, ⟨rfl, rfl, rfl, rfl⟩⟩

/-- C10: a V1 client built by `NewClient` has an empty `domain` field, so no
operation's outbound request carries the `X-Domain` header. -/
theorem c10_newclient_domain_empty (apiKey apiUrl : String)
    (id messageID ipAddress : String) (queryHash sortHash : List (String × String))
    (fields : List String) (page perPage : Int) (additionalFlags : Option String) :
    (NewClientV1 apiKey apiUrl).domain = ""
    ∧ headersHas (buildDefaultHeaders (NewClientV1 apiKey apiUrl)) XDomainHeader = false
    ∧ headersGet (buildDefaultHeaders (NewClientV1 apiKey apiUrl)) XDomainHeader = none
    ∧ headersHas (CreateContactReqV1 (NewClientV1 apiKey apiUrl)).headers XDomainHeader = false
    ∧ headersHas (GetContactsReqV1 (NewClientV1 apiKey apiUrl) queryHash fields sortHash
        page perPage additionalFlags).headers XDomainHeader = false
    ∧ headersHas (GetContactReqV1 (NewClientV1 apiKey apiUrl) id fields).headers
        XDomainHeader = false
    ∧ headersHas (UpdateContactReqV1 (NewClientV1 apiKey apiUrl) id).headers
        XDomainHeader = false
    ∧ headersHas (UpdateContactCustomFieldsReqV1 (NewClientV1 apiKey apiUrl) id).headers
        XDomainHeader = false
    ∧ headersHas (DeleteContactReqV1 (NewClientV1 apiKey apiUrl) id messageID
        ipAddress).headers XDomainHeader = false := by
  have hh : headersHas (buildDefaultHeaders (NewClientV1 apiKey apiUrl)) XDomainHeader
      = false := by
    rw [buildDefaultHeaders_eq]
    simp [NewClientV1, headersHas, XAuthTokenHeader, XDomainHeader]
  have hg : headersGet (buildDefaultHeaders (NewClientV1 apiKey apiUrl)) XDomainHeader
      = none := by
    rw [buildDefaultHeaders_eq]
    simp [NewClientV1, headersGet, XAuthTokenHeader, XDomainHeader]
  exact ⟨rfl, hh, hg, hh, hh, hh, hh, hh, hh⟩

/-- C6 counterexample (negation of the claim): there is no status that the
two implementations classify differently — V1's `DeleteContact` succeeds
exactly when V2's does, for every status. -/
theorem c6_boundary_agreement_counterexample :
    ¬ ∃ s : Int, ¬ ((DeleteContactV1 ⟨s, "", none⟩ = none)
        ↔ (DeleteContactV2 ⟨s, "", none⟩ = none)) := by
  rintro ⟨s, h⟩
  apply h
  by_cases hc : 200 ≤ s ∧ s < 400
  · have hv1 : ¬ (s < 200 ∨ 400 ≤ s) := by omega
    simp [DeleteContactV1, DeleteContactV2, checkGetResponseError, hv1, hc]
  · have hv1 : s < 200 ∨ 400 ≤ s := by omega
    cases hE : goUnmarshalGRError "" <;>
      simp [DeleteContactV1, DeleteContactV2, checkGetResponseError, hv1, hc, hE]

/-- C6 amended: the two implementations test syntactically different but
logically complementary conditions (`status < 200 || status >= 400` in V1 vs
`status >= 200 && status < 400` in V2), so every status is classified
identically by both, with success exactly on `[200, 400)`. -/
theorem c6_boundary_agreement (s : Int) (body : String) :
    (¬ failCondV1 s ↔ successCondV2 s)
    ∧ (successCondV2 s ↔ 200 ≤ s ∧ s < 400)
    ∧ (opErrV1 .del ⟨s, body, none⟩ = none ↔ successCondV2 s)
    ∧ (opErrV2 .del ⟨s, body, none⟩ = none ↔ successCondV2 s) := by
  refine ⟨?_, Iff.rfl, ?_, ?_⟩
  · unfold failCondV1 successCondV2
    omega
  all_goals
    by_cases hc : 200 ≤ s ∧ s < 400
  · have hv1 : ¬ (s < 200 ∨ 400 ≤ s) := by omega
    simp [opErrV1, DeleteContactV1, successCondV2, hv1, hc]
  · have hv1 : s < 200 ∨ 400 ≤ s := by omega
    simp [opErrV1, DeleteContactV1, successCondV2, hv1, hc]
  · simp [opErrV2, DeleteContactV2, checkGetResponseError, successCondV2, hc]
  · cases hE : goUnmarshalGRError body <;>
      simp [opErrV2, DeleteContactV2, checkGetResponseError, successCondV2, hc, hE]

/-- C7 counterexample: for id `"123"`, message id `"hello world"` and IP
`"127.0.0.1"`, the encoded delete query is `ipAddress=127.0.0.1&messageId=hello+world`
(keys sorted by `url.Values.Encode`), not `messageId=hello+world&ipAddress=127.0.0.1`
as claimed. -/
theorem c7_delete_query_order_counterexample :
    (DeleteContactReqV1 ⟨"key", "", ""⟩ "123" "hello world" "127.0.0.1").rawQuery
        = "ipAddress=127.0.0.1&messageId=hello+world"
    ∧ ((DeleteContactReqV1 ⟨"key", "", ""⟩ "123" "hello world" "127.0.0.1").rawQuery
        == "messageId=hello+world&ipAddress=127.0.0.1") = false := by
  exact ⟨by rfl, by rfl⟩

/-- C7 amended: the delete request for those inputs is
`DELETE /v3/contacts/123?ipAddress=127.0.0.1&messageId=hello+world` (the query
keys sorted by `url.Values.Encode`, the space encoded as `+`), and any 2xx
status with no transport error yields a nil error in both implementations. -/
theorem c7_delete_request (g1 : GetResponseClientV1) (g2 : GetResponseClientV2)
    (s : Int) (body : String) (h2 : 200 ≤ s) (h3 : s < 300) :
    (DeleteContactReqV1 g1 "123" "hello world" "127.0.0.1").method = "DELETE"
    ∧ (DeleteContactReqV1 g1 "123" "hello world" "127.0.0.1").path = "/v3/contacts/123"
    ∧ (DeleteContactReqV1 g1 "123" "hello world" "127.0.0.1").rawQuery
        = "ipAddress=127.0.0.1&messageId=hello+world"
    ∧ (DeleteContactReqV2 g2 "123" "hello world" "127.0.0.1").method = "DELETE"
    ∧ (DeleteContactReqV2 g2 "123" "hello world" "127.0.0.1").path
        = g2.apiUrl ++ "/v3/contacts/123"
    ∧ (DeleteContactReqV2 g2 "123" "hello world" "127.0.0.1").rawQuery
        = "ipAddress=127.0.0.1&messageId=hello+world"
    ∧ DeleteContactV1 ⟨s, body, none⟩ = none
    ∧ DeleteContactV2 ⟨s, body, none⟩ = none := by
  have hv1 : ¬ (s < 200 ∨ 400 ≤ s) := by omega
  have hc : 200 ≤ s ∧ s < 400 := by omega
  refine ⟨rfl, rfl, rfl, rfl, rfl, rfl, ?_, ?_⟩
  · simp [DeleteContactV1, hv1]
  · simp [DeleteContactV2, checkGetResponseError, hc]

/-- C7 witness: the amended delete-request theorem at a concrete client and
the concrete status 204. -/
theorem c7_delete_request_witness :
    (DeleteContactReqV1 ⟨"key", "", ""⟩ "123" "hello world" "127.0.0.1").method = "DELETE"
    ∧ (DeleteContactReqV1 ⟨"key", "", ""⟩ "123" "hello world" "127.0.0.1").path
        = "/v3/contacts/123"
    ∧ (DeleteContactReqV1 ⟨"key", "", ""⟩ "123" "hello world" "127.0.0.1").rawQuery
        = "ipAddress=127.0.0.1&messageId=hello+world"
    ∧ (DeleteContactReqV2 ⟨"key", "", ""⟩ "123" "hello world" "127.0.0.1").method = "DELETE"
    ∧ (DeleteContactReqV2 ⟨"key", "", ""⟩ "123" "hello world" "127.0.0.1").path
        = (⟨"key", "", ""⟩ : GetResponseClientV2).apiUrl ++ "/v3/contacts/123"
    ∧ (DeleteContactReqV2 ⟨"key", "", ""⟩ "123" "hello world" "127.0.0.1").rawQuery
        = "ipAddress=127.0.0.1&messageId=hello+world"
    ∧ DeleteContactV1 ⟨204, "", none⟩ = none
    ∧ DeleteContactV2 ⟨204, "", none⟩ = none :=
  c7_delete_request ⟨"key", "", ""⟩ ⟨"key", "", ""⟩ 204 "" (by decide) (by decide)

/-- Outside the success range, every V1 operation returns `parseError` of the
body. -/
theorem opErrV1_fail (op : GrOp) (s : Int) (body : String) (h : s < 200 ∨ 400 ≤ s) :
    opErrV1 op ⟨s, body, none⟩ = some (parseError body) := by
  cases op <;>
    simp [opErrV1, CreateContactV1, GetContactsV1, GetContactV1, UpdateContactV1,
      UpdateContactCustomFieldsV1, DeleteContactV1, h]

/-- Outside the success range, every V2 operation returns the result of the
remote-error decode attempt. -/
theorem opErrV2_fail (op : GrOp) (s : Int) (body : String) (h : ¬ (200 ≤ s ∧ s < 400)) :
    opErrV2 op ⟨s, body, none⟩ = some (decodeRemoteErrorV2 body) := by
  cases op <;>
    cases hE : goUnmarshalGRError body <;>
      simp [opErrV2, CreateContactV2, GetContactsV2, GetContactV2, UpdateContactV2,
        UpdateContactCustomFieldsV2, DeleteContactV2, checkGetResponseError,
        decodeRemoteErrorV2, h, hE]

/-- Inside the success range, a V1 operation's error can only be `nil` or the
payload decode failure `ErrCouldNotUnmarshal`. -/
theorem opErrV1_ok (op : GrOp) (s : Int) (body : String) (h : ¬ (s < 200 ∨ 400 ≤ s)) :
    opErrV1 op ⟨s, body, none⟩ = none
      ∨ opErrV1 op ⟨s, body, none⟩ = some ErrCouldNotUnmarshal := by
  cases op
  case create => exact Or.inl (by simp [opErrV1, CreateContactV1, h])
  case del => exact Or.inl (by simp [opErrV1, DeleteContactV1, h])
  case getAll =>
    rcases hU : goUnmarshalContacts body (some []) with ⟨r, e⟩
    cases e
    · exact Or.inl (by simp [opErrV1, GetContactsV1, h, hU])
    · exact Or.inr (by simp [opErrV1, GetContactsV1, h, hU])
  case getOne =>
    cases hU : goUnmarshalContact body
    · exact Or.inr (by simp [opErrV1, GetContactV1, h, hU])
    · exact Or.inl (by simp [opErrV1, GetContactV1, h, hU])
  case update =>
    cases hU : goUnmarshalContact body
    · exact Or.inr (by simp [opErrV1, UpdateContactV1, h, hU])
    · exact Or.inl (by simp [opErrV1, UpdateContactV1, h, hU])
  case upsertCF =>
    cases hU : goUnmarshalContact body
    · exact Or.inr (by simp [opErrV1, UpdateContactCustomFieldsV1, h, hU])
    · exact Or.inl (by simp [opErrV1, UpdateContactCustomFieldsV1, h, hU])

/-- Inside the success range, a V2 operation's error can only be `nil` or the
payload decode failure `ErrCouldNotUnmarshal`. -/
theorem opErrV2_ok (op : GrOp) (s : Int) (body : String) (h : 200 ≤ s ∧ s < 400) :
    opErrV2 op ⟨s, body, none⟩ = none
      ∨ opErrV2 op ⟨s, body, none⟩ = some ErrCouldNotUnmarshal := by
  cases op
  case create =>
    exact Or.inl (by simp [opErrV2, CreateContactV2, checkGetResponseError, h])
  case del =>
    exact Or.inl (by simp [opErrV2, DeleteContactV2, checkGetResponseError, h])
  case getAll =>
    rcases hU : goUnmarshalContacts body none with ⟨r, e⟩
    cases e
    · exact Or.inl (by simp [opErrV2, GetContactsV2, checkGetResponseError, h, hU])
    · exact Or.inr (by simp [opErrV2, GetContactsV2, checkGetResponseError, h, hU])
  case getOne =>
    cases hU : goUnmarshalContact body
    · exact Or.inr (by simp [opErrV2, GetContactV2, checkGetResponseError, h, hU])
    · exact Or.inl (by simp [opErrV2, GetContactV2, checkGetResponseError, h, hU])
  case update =>
    cases hU : goUnmarshalContact body
    · exact Or.inr (by simp [opErrV2, UpdateContactV2, checkGetResponseError, h, hU])
    · exact Or.inl (by simp [opErrV2, UpdateContactV2, checkGetResponseError, h, hU])
  case upsertCF =>
    cases hU : goUnmarshalContact body
    · exact Or.inr (by simp [opErrV2, UpdateContactCustomFieldsV2, checkGetResponseError, h, hU])
    · exact Or.inl (by simp [opErrV2, UpdateContactCustomFieldsV2, checkGetResponseError, h, hU])

/-- C1: for every operation of either implementation, with no transport
error, the call is classified as successful iff the status lies in
`[200, 400)`: inside the range the only possible error is the payload decode
failure (and the void operations return nil outright); outside the range
every operation returns the result of error decoding. -/
theorem c1_status_success_range (s : Int) (body : String) (op : GrOp) :
    ((200 ≤ s ∧ s < 400) →
      (opErrV1 op ⟨s, body, none⟩ = none
          ∨ opErrV1 op ⟨s, body, none⟩ = some ErrCouldNotUnmarshal)
      ∧ (opErrV2 op ⟨s, body, none⟩ = none
          ∨ opErrV2 op ⟨s, body, none⟩ = some ErrCouldNotUnmarshal)
      ∧ ((op = .create ∨ op = .del) →
          opErrV1 op ⟨s, body, none⟩ = none ∧ opErrV2 op ⟨s, body, none⟩ = none))
    ∧ (¬ (200 ≤ s ∧ s < 400) →
      opErrV1 op ⟨s, body, none⟩ = some (parseError body)
      ∧ opErrV2 op ⟨s, body, none⟩ = some (decodeRemoteErrorV2 body)) := by
  constructor
  · intro hc
    have h1 : ¬ (s < 200 ∨ 400 ≤ s) := by omega
    refine ⟨opErrV1_ok op s body h1, opErrV2_ok op s body hc, ?_⟩
    rintro (rfl | rfl)
    · exact ⟨by simp [opErrV1, CreateContactV1, h1],
        by simp [opErrV2, CreateContactV2, checkGetResponseError, hc]⟩
    · exact ⟨by simp [opErrV1, DeleteContactV1, h1],
        by simp [opErrV2, DeleteContactV2, checkGetResponseError, hc]⟩
  · intro hc
    exact ⟨opErrV1_fail op s body (by omega), opErrV2_fail op s body hc⟩

/-- C1 witness: status 399 is a success for the void create operation, while
statuses 400 and 199 are failures on which error decoding is attempted. -/
theorem c1_status_success_range_witness :
    (opErrV1 .create ⟨399, "", none⟩ = none ∧ opErrV2 .create ⟨399, "", none⟩ = none)
    ∧ (opErrV1 .create ⟨400, "", none⟩ = some (parseError "")
        ∧ opErrV2 .create ⟨400, "", none⟩ = some (decodeRemoteErrorV2 ""))
    ∧ (opErrV1 .create ⟨199, "", none⟩ = some (parseError "")
        ∧ opErrV2 .create ⟨199, "", none⟩ = some (decodeRemoteErrorV2 "")) :=
  ⟨((c1_status_success_range 399 "" .create).1 (by decide)).2.2 (Or.inl rfl),
    (c1_status_success_range 400 "" .create).2 (by decide),
    (c1_status_success_range 199 "" .create).2 (by decide)⟩

/-- C3: on any status ≥ 400 with body `{"code":1008,"message":"conflict"}`,
every operation of either implementation returns an error whose `Error()`
string equals `"conflict"`. -/
theorem c3_conflict_message (s : Int) (hs : 400 ≤ s) (op : GrOp) :
    (opErrV1 op ⟨s, conflictBody, none⟩).map GoError.message = some "conflict"
    ∧ (opErrV2 op ⟨s, conflictBody, none⟩).map GoError.message = some "conflict" := by
  rw [opErrV1_fail op s conflictBody (Or.inr hs),
    opErrV2_fail op s conflictBody (by omega)]
  exact ⟨rfl, rfl⟩

/-- C3 witness: the conflict-message theorem at status 409 for the create
operation. -/
theorem c3_conflict_message_witness :
    (opErrV1 .create ⟨409, conflictBody, none⟩).map GoError.message = some "conflict"
    ∧ (opErrV2 .create ⟨409, conflictBody, none⟩).map GoError.message = some "conflict" :=
  c3_conflict_message 409 (by decide) .create

/-- C8: on any failure status with the well-formed bodies `{}` or
`{"code":1008}` (no message), every operation of either implementation
returns the decoded remote error with the absent fields at their zero values
(in particular an empty message), and no secondary decode error. -/
theorem c8_absent_fields_zero (s : Int) (hs : s < 200 ∨ 400 ≤ s) (op : GrOp) :
    opErrV1 op ⟨s, emptyObjBody, none⟩ = some (GoError.simple "")
    ∧ opErrV1 op ⟨s, code1008Body, none⟩ = some (GoError.simple "")
    ∧ opErrV2 op ⟨s, emptyObjBody, none⟩ = some (GoError.grError {})
    ∧ opErrV2 op ⟨s, code1008Body, none⟩ = some (GoError.grError { ErrorCode := 1008 })
    ∧ GoError.message (GoError.grError ({} : GetResponseError)) = ""
    ∧ GoError.message (GoError.grError { ErrorCode := 1008 }) = "" := by
  have h2 : ¬ (200 ≤ s ∧ s < 400) := by omega
  refine ⟨?_, ?_, ?_, ?_, rfl, rfl⟩
  · rw [opErrV1_fail op s emptyObjBody hs]; rfl
  · rw [opErrV1_fail op s code1008Body hs]; rfl
  · rw [opErrV2_fail op s emptyObjBody h2]; rfl
  · rw [opErrV2_fail op s code1008Body h2]; rfl

/-- C8 witness: the absent-fields theorem at status 500 for the fetch-one
operation. -/
theorem c8_absent_fields_zero_witness :
    opErrV1 .getOne ⟨500, emptyObjBody, none⟩ = some (GoError.simple "")
    ∧ opErrV1 .getOne ⟨500, code1008Body, none⟩ = some (GoError.simple "")
    ∧ opErrV2 .getOne ⟨500, emptyObjBody, none⟩ = some (GoError.grError {})
    ∧ opErrV2 .getOne ⟨500, code1008Body, none⟩ = some (GoError.grError { ErrorCode := 1008 })
    ∧ GoError.message (GoError.grError ({} : GetResponseError)) = ""
    ∧ GoError.message (GoError.grError { ErrorCode := 1008 }) = "" :=
  c8_absent_fields_zero 500 (by decide) .getOne

/-- C2 counterexample: at status 500 with the undecodable body `{"not json"`,
V2 returns the plain JSON decode error and V1 returns a fixed
`errors.New` message; neither is the `GetResponseErrorRaw` value that would
carry the original status and raw bytes. -/
theorem c2_decode_failure_counterexample :
    opErrV2 .create ⟨500, badBody, none⟩ = some (GoError.jsonError "invalid json")
    ∧ GoError.isRawDecodeFailure (GoError.jsonError "invalid json") = false
    ∧ opErrV1 .create ⟨500, badBody, none⟩
        = some (GoError.simple "could not unmarshal error response")
    ∧ GoError.isRawDecodeFailure (GoError.simple "could not unmarshal error response")
        = false := by
  exact ⟨rfl, rfl, rfl, rfl⟩

/-- C2 amended: on a failure status with a body that does not decode as the
remote-error shape, V2 returns the JSON decode error itself and V1 returns
the fixed message `could not unmarshal error response`; neither error is the
(declared but never constructed) `GetResponseErrorRaw` shape, so the original
status and raw bytes are not carried. -/
theorem c2_decode_failure_amended (s : Int) (body m : String) (op : GrOp)
    (hs : s < 200 ∨ 400 ≤ s) (hbad : goUnmarshalGRError body = .error m) :
    opErrV2 op ⟨s, body, none⟩ = some (GoError.jsonError m)
    ∧ opErrV1 op ⟨s, body, none⟩
        = some (GoError.simple "could not unmarshal error response")
    ∧ GoError.isRawDecodeFailure (GoError.jsonError m) = false
    ∧ GoError.isRawDecodeFailure (GoError.simple "could not unmarshal error response")
        = false := by
  refine ⟨?_, ?_, rfl, rfl⟩
  · rw [opErrV2_fail op s body (by omega)]
    simp [decodeRemoteErrorV2, hbad]
  · rw [opErrV1_fail op s body hs]
    simp [parseError, goUnmarshalErrorResponse, hbad]

/-- C2 witness: the amended decode-failure theorem at status 500, the body
`{"not json"`, and the delete operation. -/
theorem c2_decode_failure_amended_witness :
    opErrV2 .del ⟨500, badBody, none⟩ = some (GoError.jsonError "invalid json")
    ∧ opErrV1 .del ⟨500, badBody, none⟩
        = some (GoError.simple "could not unmarshal error response")
    ∧ GoError.isRawDecodeFailure (GoError.jsonError "invalid json") = false
    ∧ GoError.isRawDecodeFailure (GoError.simple "could not unmarshal error response")
        = false :=
  c2_decode_failure_amended 500 badBody "invalid json" .del (by decide) (by rfl)

/-- C4 counterexample: with the malformed body `{"not json"` on success-range
statuses, the void operations create and delete return a nil error — a
successful result — in both implementations. -/
theorem c4_malformed_body_counterexample :
    (parseJson badBody).isNone = true
    ∧ opErrV1 .create ⟨200, badBody, none⟩ = none
    ∧ opErrV2 .create ⟨200, badBody, none⟩ = none
    ∧ opErrV1 .del ⟨204, badBody, none⟩ = none
    ∧ opErrV2 .del ⟨204, badBody, none⟩ = none := by
  exact ⟨rfl, rfl, rfl, rfl, rfl⟩

/-- C4 amended: a malformed JSON body yields a decode-failure error for the
non-void operations at every status, and for all operations at failure
statuses; the void operations at success-range statuses discard the body and
succeed. -/
theorem c4_malformed_body_amended (s : Int) (body : String) (op : GrOp)
    (hbad : parseJson body = none) :
    ((op = .getAll ∨ op = .getOne ∨ op = .update ∨ op = .upsertCF) →
      (opErrV1 op ⟨s, body, none⟩).isSome = true
        ∧ (opErrV2 op ⟨s, body, none⟩).isSome = true)
    ∧ ((s < 200 ∨ 400 ≤ s) →
      (opErrV1 op ⟨s, body, none⟩).isSome = true
        ∧ (opErrV2 op ⟨s, body, none⟩).isSome = true) := by
  constructor
  · intro hop
    by_cases hr : s < 200 ∨ 400 ≤ s
    · rw [opErrV1_fail op s body hr, opErrV2_fail op s body (by omega)]
      exact ⟨rfl, rfl⟩
    · have hc : 200 ≤ s ∧ s < 400 := by omega
      rcases hop with h | h | h | h <;> subst h <;>
        simp [opErrV1, opErrV2, GetContactsV1, GetContactsV2, GetContactV1, GetContactV2,
          UpdateContactV1, UpdateContactV2, UpdateContactCustomFieldsV1,
          UpdateContactCustomFieldsV2, checkGetResponseError, goUnmarshalContacts,
          goUnmarshalContact, hbad, hr, hc]
  · intro hr
    rw [opErrV1_fail op s body hr, opErrV2_fail op s body (by omega)]
    exact ⟨rfl, rfl⟩

/-- C4 witness: the amended malformed-body theorem for the list operation,
at the in-range status 250 and at the failure status 500. -/
theorem c4_malformed_body_amended_witness :
    ((opErrV1 .getAll ⟨250, badBody, none⟩).isSome = true
      ∧ (opErrV2 .getAll ⟨250, badBody, none⟩).isSome = true)
    ∧ ((opErrV1 .getAll ⟨500, badBody, none⟩).isSome = true
      ∧ (opErrV2 .getAll ⟨500, badBody, none⟩).isSome = true) :=
  ⟨(c4_malformed_body_amended 250 badBody .getAll (by rfl)).1 (Or.inl rfl),
    (c4_malformed_body_amended 500 badBody .getAll (by rfl)).2 (by decide)⟩

/-- C9 counterexample: a success-status body of JSON `null` makes V1
`GetContacts` return a nil slice with no error, and a valid-JSON body of the
wrong element shape (`[1]`) makes its decode-failure path return a slice of
length one, not the empty slice. -/
theorem c9_getcontacts_slice_counterexample :
    (GetContactsV1 ⟨200, "null", none⟩).1 = none
    ∧ (GetContactsV1 ⟨200, "null", none⟩).2 = none
    ∧ (GetContactsV1 ⟨200, "[1]", none⟩).1 = some [{}]
    ∧ (GetContactsV1 ⟨200, "[1]", none⟩).2 = some ErrCouldNotUnmarshal := by
  exact ⟨rfl, rfl, rfl, rfl⟩

/-- In the success range with no transport error, `GetContactsV1` is the
payload decode step applied to the empty non-nil slice, any decode error
being reported as `ErrCouldNotUnmarshal`. -/
theorem GetContactsV1_ok (s : Int) (body : String) (hr : ¬ (s < 200 ∨ 400 ≤ s)) :
    GetContactsV1 ⟨s, body, none⟩ =
      ((goUnmarshalContacts body (some [])).1,
        ((goUnmarshalContacts body (some [])).2).map (fun _ => ErrCouldNotUnmarshal)) := by
  simp only [GetContactsV1]
  rw [if_neg hr]
  rcases hU : goUnmarshalContacts body (some []) with ⟨r, e2⟩
  cases e2 <;> rfl

/-- When the slice decode reports an error, the target slice is non-nil
(only a successful decode of JSON `null` sets it to nil). -/
theorem goUnmarshalContacts_fst_isSome (body : String) (init : GoSlice Contact)
    (hinit : init.isSome = true)
    (herr : (goUnmarshalContacts body init).2 ≠ none) :
    ((goUnmarshalContacts body init).1).isSome = true := by
  unfold goUnmarshalContacts at herr ⊢
  cases hp : parseJson body with
  | none => simpa using hinit
  | some j =>
    rw [hp] at herr
    cases j with
    | null => simp [unmarshalContactsVal] at herr
    | arr xs =>
      rcases hD : decodeContactElems xs with ⟨cs, e3⟩
      simp [unmarshalContactsVal, hD]
    | bool b => simpa [unmarshalContactsVal] using hinit
    | num n => simpa [unmarshalContactsVal] using hinit
    | numF l => simpa [unmarshalContactsVal] using hinit
    | str s2 => simpa [unmarshalContactsVal] using hinit
    | obj fs => simpa [unmarshalContactsVal] using hinit

/-- C9 amended: V1 `GetContacts` returns the empty non-nil slice together
with the error on a transport error and on a remote-error status, and on a
decode failure the returned slice is still non-nil (though possibly non-empty);
only a successful decode of JSON `null` can make the slice nil. -/
theorem c9_getcontacts_slice_amended (t : TransportOutcome) :
    (∀ e, t.err = some e → GetContactsV1 t = (some [], some e))
    ∧ (t.err = none → (t.status < 200 ∨ 400 ≤ t.status) →
        GetContactsV1 t = (some [], some (parseError t.body)))
    ∧ (t.err = none → ¬ (t.status < 200 ∨ 400 ≤ t.status) →
        ((GetContactsV1 t).2).isSome = true → ((GetContactsV1 t).1).isSome = true) := by
  obtain ⟨s, body, err⟩ := t
  refine ⟨?_, ?_, ?_⟩
  · rintro e rfl
    rfl
  · rintro rfl hr
    simp [GetContactsV1, hr]
  · rintro rfl hr hS
    rw [GetContactsV1_ok s body hr] at hS ⊢
    apply goUnmarshalContacts_fst_isSome body (some []) rfl
    intro hnone
    rw [hnone] at hS
    simp at hS

/-- C9 witness: the amended slice theorem on the remote-error path at status
500. -/
theorem c9_getcontacts_slice_amended_witness :
    GetContactsV1 ⟨500, "x", none⟩ = (some [], some (parseError "x")) :=
  (c9_getcontacts_slice_amended ⟨500, "x", none⟩).2.1 rfl (by decide)
